import Mathlib

/-!
Verification development for a depth-first pre-order SQL AST traversal
program (`src/main.rs`).  The program parses a SQL statement with an
external parser, stores AST nodes in an append-only arena addressed by
integer identifiers, and walks the tree lazily: a child enumerator
(`StatementIterator`) materializes at most one child per call, and a
pre-order driver consumes it.

The shallow embedding below translates the source definitions into Lean.
The external parser's AST types (`Statement`, `Query`, `SetExpr`, ...)
are opaque to the program, which pattern-matches on them by variant only;
they are modelled with the variants and fields the program inspects.
-/

set_option autoImplicit false

/-- Binary operator token of the external parser (opaque to the program). -/
inductive BinaryOperator where
  | Eq : BinaryOperator
  | Plus : BinaryOperator
  | OtherOp : String → BinaryOperator
deriving DecidableEq, Repr

/-- Scalar expression of the external parser (opaque to the program). -/
inductive Expr where
  | Identifier : String → Expr
  | Value : String → Expr
  | BinaryOp : Expr → BinaryOperator → Expr → Expr
  | OtherExpr : String → Expr
deriving DecidableEq, Repr

/-- One projected column expression (opaque to the program). -/
inductive SelectItem where
  | UnnamedExpr : Expr → SelectItem
  | Wildcard : SelectItem
  | OtherItem : String → SelectItem
deriving DecidableEq, Repr

/-- A FROM-clause entry plus its joins (opaque to the program). -/
structure TableWithJoins where
  relation : String
deriving DecidableEq, Repr

/-- A single SELECT block.  The program reads only the `from_` field
(`select.from` in the source); `projection` and `selection` are carried
along unmodified. -/
structure Select where
  projection : List SelectItem
  from_ : List TableWithJoins
  selection : Option Expr
deriving DecidableEq, Repr

mutual

/-- A parsed SQL statement.  The program matches `Statement::Query` and
treats every other variant uniformly (`_ => None`). -/
inductive Statement where
  | Query : Query → Statement
  | Insert : String → Statement
  | OtherStatement : String → Statement

/-- A query; the program reads its `body` (a `SetExpr`). -/
inductive Query where
  | mk : SetExpr → Query

/-- A set-expression.  The program matches `SetExpr::Select` and treats
every other variant uniformly (`_ => None`). -/
inductive SetExpr where
  | Select : Select → SetExpr
  | Query : Query → SetExpr
  | SetOperation : String → SetExpr → SetExpr → SetExpr
  | Values : List (List Expr) → SetExpr
  | Insert : Statement → SetExpr

end

/-- `query.body` accessor. -/
def Query.body : Query → SetExpr
  | .mk b => b

/-- AST nodes: the tagged union stored in the arena (source lines 51-61). -/
inductive Node where
  | BinaryOperator : BinaryOperator → Node
  | Expr : Expr → Node
  | Query : Query → Node
  | SetExpr : SetExpr → Node
  | Select : Select → Node
  | SelectItem : SelectItem → Node
  | Statement : Statement → Node
  | TableWithJoins : TableWithJoins → Node

/-- The kind tag of a node (one tag per `Node` variant). -/
inductive NodeKind where
  | BinaryOperator | Expr | Query | SetExpr | Select | SelectItem
  | Statement | TableWithJoins
deriving DecidableEq, Repr

/-- Kind of a stored node. -/
def Node.kind : Node → NodeKind
  | .BinaryOperator _ => .BinaryOperator
  | .Expr _ => .Expr
  | .Query _ => .Query
  | .SetExpr _ => .SetExpr
  | .Select _ => .Select
  | .SelectItem _ => .SelectItem
  | .Statement _ => .Statement
  | .TableWithJoins _ => .TableWithJoins

/-- Storage for the AST nodes (`struct Nodes { arena: Vec<Node> }`). -/
structure Nodes where
  arena : List Node

/-- `Nodes::next_id`: the next identifier, i.e. the current length. -/
def Nodes.next_id (ns : Nodes) : Nat := ns.arena.length

/-- `Nodes::new_node`: read the next identifier, append the node, return
the identifier together with the grown arena. -/
def Nodes.new_node (ns : Nodes) (node : Node) : Nodes × Nat :=
  let id := ns.next_id
  (⟨ns.arena ++ [node]⟩, id)

/-- The process-wide mutable state: the `NEXT` thread-local cell and the
`NODES` thread-local arena. -/
structure GlobalState where
  next : Nat
  nodes : Nodes

/-- `next_put`: store an identifier into the `NEXT` cell. -/
def next_put (g : GlobalState) (id : Nat) : GlobalState :=
  { g with next := id }

/-- `next_get`: read the `NEXT` cell. -/
def next_get (g : GlobalState) : Nat := g.next

/-- `nodes_next_id`: read the arena's next identifier. -/
def nodes_next_id (g : GlobalState) : Nat := g.nodes.next_id

/-- Iterator over a statement node's children: the current node id in the
`NODES` arena and the step counter. -/
structure StatementIterator where
  current : Nat
  step : Nat
deriving DecidableEq, Repr

/-- `stm_iter`: construct a child iterator for the node whose identifier
is currently stored in the `NEXT` cell, with step counter 0. -/
def stm_iter (g : GlobalState) : StatementIterator :=
  { current := next_get g, step := 0 }

/-- The `new_node` closure inside `StatementIterator::next`: increment the
step counter, allocate the node, store the fresh identifier in `NEXT`. -/
def StatementIterator.alloc_child (it : StatementIterator) (g : GlobalState)
    (node : Node) : StatementIterator × GlobalState :=
  let it' := { it with step := it.step + 1 }
  let id := nodes_next_id g
  let g' := { g with nodes := (g.nodes.new_node node).1 }
  (it', next_put g' id)

/-- `StatementIterator::next`: inspect the arena value at `current` and
either materialize one child (returning `some ()`, the advanced iterator
and the updated global state) or report exhaustion (`none`, everything
unchanged).  The yielded item in the source is a reference to the `NEXT`
cell, which carries no data of its own; the produced identifier is read
from `NEXT` in the result state. -/
def StatementIterator.next (it : StatementIterator) (g : GlobalState) :
    Option Unit × StatementIterator × GlobalState :=
  match g.nodes.arena[it.current]? with
  | some (Node.Statement stm) =>
    match stm with
    | Statement.Query query =>
      if it.step = 0 then
        let (it', g') := it.alloc_child g (Node.SetExpr query.body)
        (some (), it', g')
      else
        (none, it, g)
    | _ => (none, it, g)
  | some (Node.SetExpr set_expr) =>
    match set_expr with
    | SetExpr.Select select =>
      if h : it.step < select.from_.length then
        let (it', g') :=
          it.alloc_child g (Node.TableWithJoins (select.from_[it.step]))
        (some (), it', g')
      else
        (none, it, g)
    | _ => (none, it, g)
  | _ => (none, it, g)

/-- A stack frame of the traversal driver: the child iterator (cursor) of
the frame's node, the frame's depth, the identifier of the node whose
enumerator produced it (`none` for the root), and whether the frame's
node has been yielded yet. -/
structure Frame where
  it : StatementIterator
  depth : Nat
  parent : Option Nat
  yielded : Bool

/-- One yielded traversal item: the depth reported by the driver, the
identifier read from the `NEXT` cell at yield time, and the parent
identifier recorded when the frame was pushed. -/
structure Out where
  depth : Nat
  id : Nat
  parent : Option Nat
deriving DecidableEq, Repr

/-- Modelled from the spec: the Traversal Driver (the external
`traversal::DftPre` crate, not part of this repository's sources) as
described in section 4.3 of the design: a stack of frames, each holding a
node identifier and a fresh enumeration cursor; peek the top frame, yield
`(depth, id)` if it has not been yielded, otherwise ask its cursor for the
next child; on a child, push a new frame at `depth + 1` with a fresh
cursor (`stm_iter` reads the just-stored `NEXT` identifier); on
exhaustion, pop.  `fuel` bounds the number of loop iterations. -/
def drive : Nat → List Frame → GlobalState → List Out × GlobalState
  | 0, _, g => ([], g)
  | _ + 1, [], g => ([], g)
  | fuel + 1, f :: rest, g =>
    if f.yielded then
      match f.it.next g with
      | (some _, it', g') =>
        let child : Frame :=
          { it := stm_iter g', depth := f.depth + 1,
            parent := some f.it.current, yielded := false }
        drive fuel (child :: { f with it := it' } :: rest) g'
      | (none, _, g') => drive fuel rest g'
    else
      let r := drive fuel ({ f with yielded := true } :: rest) g
      (⟨f.depth, next_get g, f.parent⟩ :: r.1, r.2)

/-- Fuel sufficient to run the driver to completion on the tree grown
from one statement root: the enumerator descends at most Statement →
SetExpr → TableWithJoins, with one TableWithJoins child per FROM entry. -/
def driveFuel (stm : Statement) : Nat :=
  match stm with
  | .Query q =>
    match q.body with
    | .Select s => 3 * s.from_.length + 5
    | _ => 5
  | _ => 5

/-- Seed one parsed statement into the arena as the source's `parse_sql`
loop body does (allocate at `next_id`, store the root id in `NEXT`), then
run the traversal driver over it, returning the yielded items and the
final global state. -/
def run_statement (g : GlobalState) (stm : Statement) : List Out × GlobalState :=
  let top := nodes_next_id g
  let g1 := next_put { g with nodes := (g.nodes.new_node (Node.Statement stm)).1 } top
  drive (driveFuel stm) [{ it := { current := top, step := 0 }, depth := 0,
                           parent := none, yielded := false }] g1

/-- Diagnostic of the external parser. -/
structure ParserError where
  message : String
deriving DecidableEq, Repr

/-- The error taxonomy of the program (`enum QueryParseError`). -/
inductive QueryParseError where
  | InvalidNode : QueryParseError
  | NotImplemented : QueryParseError
  | Parse : ParserError → QueryParseError
deriving DecidableEq, Repr

/-- `From<ParserError> for QueryParseError`: wrap the diagnostic. -/
def QueryParseError.fromParserError (e : ParserError) : QueryParseError :=
  QueryParseError.Parse e

/-- Modelled from the spec: the external SQL parser capability
(`sqlparser::Parser::parse_sql`, not part of this repository's sources),
`parse(text) -> Result<sequence of Statement, ParseError>`, defined on
the concrete inputs the spec describes: the two end-to-end examples parse
to the statements the spec names, and the malformed input
`"select from"` fails with a diagnostic.  Inputs the spec does not
describe are mapped to a diagnostic as well; no claim evaluates them. -/
def parse (sql : String) : Except ParserError (List Statement) :=
  if sql = "select a, b from t where a = 1" then
    Except.ok [Statement.Query (Query.mk (SetExpr.Select
      { projection := [SelectItem.UnnamedExpr (Expr.Identifier "a"),
                       SelectItem.UnnamedExpr (Expr.Identifier "b")],
        from_ := [{ relation := "t" }],
        selection := some (Expr.BinaryOp (Expr.Identifier "a")
          BinaryOperator.Eq (Expr.Value "1")) }))]
  else if sql = "select a from t1 union select b from t2" then
    Except.ok [Statement.Query (Query.mk (SetExpr.SetOperation "UNION"
      (SetExpr.Select { projection := [SelectItem.UnnamedExpr (Expr.Identifier "a")],
                        from_ := [{ relation := "t1" }], selection := none })
      (SetExpr.Select { projection := [SelectItem.UnnamedExpr (Expr.Identifier "b")],
                        from_ := [{ relation := "t2" }], selection := none })))]
  else
    Except.error { message := "Expected an expression, found: " ++ sql }

/-- `parse_sql`: parse the input; on a parser error, return it wrapped as
`QueryParseError::Parse` with no traversal output and the global state
untouched; on success, seed and traverse each statement in order,
concatenating the yielded items. -/
def parse_sql (g : GlobalState) (sql : String) :
    Except QueryParseError Unit × List Out × GlobalState :=
  match parse sql with
  | Except.error e => (Except.error (QueryParseError.fromParserError e), [], g)
  | Except.ok statements =>
    let step := fun (acc : List Out × GlobalState) (stm : Statement) =>
      let (outs, g') := run_statement acc.2 stm
      (acc.1 ++ outs, g')
    let r := statements.foldl step ([], g)
    (Except.ok (), r.1, r.2)

/-- The sequence of (depth, kind-of-node-read-from-the-arena) pairs a
consumer of one statement's traversal observes. -/
def traceKinds (g : GlobalState) (stm : Statement) :
    List (Nat × Option NodeKind) :=
  (run_statement g stm).1.map fun o =>
    (o.depth, ((run_statement g stm).2.nodes.arena[o.id]?).map Node.kind)


/-! ### Enumerator step lemmas -/

theorem next_of_lookup_none (it : StatementIterator) (g : GlobalState)
    (h : g.nodes.arena[it.current]? = none) :
    it.next g = (none, it, g) := by
  simp [StatementIterator.next, h]

theorem next_statement_query_step0 (it : StatementIterator) (g : GlobalState)
    (q : Query)
    (h : g.nodes.arena[it.current]? = some (Node.Statement (Statement.Query q)))
    (hs : it.step = 0) :
    it.next g = (some (), { it with step := it.step + 1 },
      { next := g.nodes.arena.length,
        nodes := ⟨g.nodes.arena ++ [Node.SetExpr q.body]⟩ }) := by
  simp [StatementIterator.next, h, hs, StatementIterator.alloc_child,
    next_put, nodes_next_id, Nodes.next_id, Nodes.new_node]

theorem next_statement_query_step_pos (it : StatementIterator) (g : GlobalState)
    (q : Query)
    (h : g.nodes.arena[it.current]? = some (Node.Statement (Statement.Query q)))
    (hs : it.step ≠ 0) :
    it.next g = (none, it, g) := by
  simp [StatementIterator.next, h, hs]

theorem next_statement_nonquery (it : StatementIterator) (g : GlobalState)
    (stm : Statement)
    (h : g.nodes.arena[it.current]? = some (Node.Statement stm))
    (hq : ∀ q, stm ≠ Statement.Query q) :
    it.next g = (none, it, g) := by
  cases stm with
  | Query q => exact absurd rfl (hq q)
  | Insert s => simp [StatementIterator.next, h]
  | OtherStatement s => simp [StatementIterator.next, h]

theorem next_setexpr_select_produce (it : StatementIterator) (g : GlobalState)
    (s : Select)
    (h : g.nodes.arena[it.current]? = some (Node.SetExpr (SetExpr.Select s)))
    (hs : it.step < s.from_.length) :
    it.next g = (some (), { it with step := it.step + 1 },
      { next := g.nodes.arena.length,
        nodes := ⟨g.nodes.arena ++ [Node.TableWithJoins (s.from_[it.step])]⟩ }) := by
  simp [StatementIterator.next, h, hs, StatementIterator.alloc_child,
    next_put, nodes_next_id, Nodes.next_id, Nodes.new_node]

theorem next_setexpr_select_exhaust (it : StatementIterator) (g : GlobalState)
    (s : Select)
    (h : g.nodes.arena[it.current]? = some (Node.SetExpr (SetExpr.Select s)))
    (hs : s.from_.length ≤ it.step) :
    it.next g = (none, it, g) := by
  simp [StatementIterator.next, h, Nat.not_lt.mpr hs]

theorem next_setexpr_nonselect (it : StatementIterator) (g : GlobalState)
    (se : SetExpr)
    (h : g.nodes.arena[it.current]? = some (Node.SetExpr se))
    (hs : ∀ s, se ≠ SetExpr.Select s) :
    it.next g = (none, it, g) := by
  cases se with
  | Select s => exact absurd rfl (hs s)
  | Query q => simp [StatementIterator.next, h]
  | SetOperation op l r => simp [StatementIterator.next, h]
  | Values v => simp [StatementIterator.next, h]
  | Insert s => simp [StatementIterator.next, h]

theorem next_other_kind (it : StatementIterator) (g : GlobalState)
    (nd : Node)
    (h : g.nodes.arena[it.current]? = some nd)
    (h1 : ∀ stm, nd ≠ Node.Statement stm)
    (h2 : ∀ se, nd ≠ Node.SetExpr se) :
    it.next g = (none, it, g) := by
  cases nd with
  | Statement stm => exact absurd rfl (h1 stm)
  | SetExpr se => exact absurd rfl (h2 se)
  | BinaryOperator x => simp [StatementIterator.next, h]
  | Expr x => simp [StatementIterator.next, h]
  | Query x => simp [StatementIterator.next, h]
  | Select x => simp [StatementIterator.next, h]
  | SelectItem x => simp [StatementIterator.next, h]
  | TableWithJoins x => simp [StatementIterator.next, h]

/-! ### Driver unfolding lemmas -/

theorem drive_emit (fuel : Nat) (f : Frame) (rest : List Frame)
    (g : GlobalState) (h : f.yielded = false) :
    drive (fuel + 1) (f :: rest) g =
      ((⟨f.depth, next_get g, f.parent⟩ : Out) ::
         (drive fuel ({ f with yielded := true } :: rest) g).1,
       (drive fuel ({ f with yielded := true } :: rest) g).2) := by
  simp [drive, h]

theorem drive_produce (fuel : Nat) (f : Frame) (rest : List Frame)
    (g : GlobalState) (it' : StatementIterator) (g' : GlobalState)
    (hy : f.yielded = true)
    (hn : f.it.next g = (some (), it', g')) :
    drive (fuel + 1) (f :: rest) g =
      drive fuel ({ it := stm_iter g', depth := f.depth + 1,
                    parent := some f.it.current, yielded := false } ::
                  { f with it := it' } :: rest) g' := by
  simp [drive, hy, hn]

theorem drive_exhaust (fuel : Nat) (f : Frame) (rest : List Frame)
    (g : GlobalState) (it' : StatementIterator) (g' : GlobalState)
    (hy : f.yielded = true)
    (hn : f.it.next g = (none, it', g')) :
    drive (fuel + 1) (f :: rest) g = drive fuel rest g' := by
  simp [drive, hy, hn]

theorem drive_nil (fuel : Nat) (g : GlobalState) : drive fuel [] g = ([], g) := by
  cases fuel <;> simp [drive]

theorem drive_emit_mk (fuel : Nat) (it0 : StatementIterator) (d : Nat)
    (p : Option Nat) (rest : List Frame) (g : GlobalState) :
    drive (fuel + 1)
      ({ it := it0, depth := d, parent := p, yielded := false } :: rest) g =
      ((⟨d, next_get g, p⟩ : Out) ::
         (drive fuel
           ({ it := it0, depth := d, parent := p, yielded := true } :: rest) g).1,
       (drive fuel
         ({ it := it0, depth := d, parent := p, yielded := true } :: rest) g).2) := by
  simp [drive]

theorem drive_produce_mk (fuel : Nat) (it0 : StatementIterator) (d : Nat)
    (p : Option Nat) (rest : List Frame) (g : GlobalState)
    (it' : StatementIterator) (g' : GlobalState)
    (hn : it0.next g = (some (), it', g')) :
    drive (fuel + 1)
      ({ it := it0, depth := d, parent := p, yielded := true } :: rest) g =
      drive fuel
        ({ it := stm_iter g', depth := d + 1, parent := some it0.current,
           yielded := false } ::
         { it := it', depth := d, parent := p, yielded := true } :: rest) g' := by
  simp [drive, hn]

theorem drive_exhaust_mk (fuel : Nat) (it0 : StatementIterator) (d : Nat)
    (p : Option Nat) (rest : List Frame) (g : GlobalState)
    (it' : StatementIterator) (g' : GlobalState)
    (hn : it0.next g = (none, it', g')) :
    drive (fuel + 1)
      ({ it := it0, depth := d, parent := p, yielded := true } :: rest) g =
      drive fuel rest g' := by
  simp [drive, hn]

/-- The global state after the FROM-enumeration loop of a SetExpr-Select
frame resumed at step `k`: the remaining FROM entries have been allocated
as TableWithJoins nodes, and `NEXT` holds the last allocated identifier
(or is untouched when the loop produced nothing). -/
def fromLoopState (s : Select) (k : Nat) (g : GlobalState) : GlobalState :=
  { next := if k < s.from_.length
      then g.nodes.arena.length + (s.from_.length - k) - 1
      else g.next,
    nodes := ⟨g.nodes.arena ++ (s.from_.drop k).map Node.TableWithJoins⟩ }

theorem fromLoopState_stable (s : Select) (k : Nat) (g : GlobalState)
    (hk : s.from_.length ≤ k) : fromLoopState s k g = g := by
  simp [fromLoopState, Nat.not_lt.mpr hk, List.drop_eq_nil_of_le hk]

theorem fromLoopState_cons (s : Select) (k : Nat) (g : GlobalState)
    (hk : k < s.from_.length) :
    fromLoopState s (k + 1)
      { next := g.nodes.arena.length,
        nodes := ⟨g.nodes.arena ++ [Node.TableWithJoins (s.from_[k])]⟩ } =
    fromLoopState s k g := by
  unfold fromLoopState
  congr 1
  · by_cases h2 : k + 1 < s.from_.length
    · rw [if_pos h2, if_pos hk]; simp; omega
    · rw [if_neg h2, if_pos hk]; simp; omega
  · congr 1
    rw [List.append_assoc, List.singleton_append,
        List.drop_eq_getElem_cons hk, List.map_cons]

theorem drive_from_select (c : Nat) (s : Select) :
    ∀ (m : Nat), ∀ (k : Nat), s.from_.length - k = m →
    ∀ (fuel d : Nat) (p : Option Nat) (rest : List Frame) (g : GlobalState),
    g.nodes.arena[c]? = some (Node.SetExpr (SetExpr.Select s)) →
    drive (3 * m + 1 + fuel)
      ({ it := ⟨c, k⟩, depth := d, parent := p, yielded := true } :: rest) g =
    (((List.range m).map fun j =>
        (⟨d + 1, g.nodes.arena.length + j, some c⟩ : Out))
       ++ (drive fuel rest (fromLoopState s k g)).1,
     (drive fuel rest (fromLoopState s k g)).2) := by
  intro m
  induction m with
  | zero =>
    intro k hk fuel d p rest g hc
    have hk' : s.from_.length ≤ k := Nat.le_of_sub_eq_zero hk
    have hne := next_setexpr_select_exhaust ⟨c, k⟩ g s hc hk'
    rw [show 3 * 0 + 1 + fuel = fuel + 1 by omega,
        drive_exhaust_mk fuel _ d p rest g _ _ hne,
        fromLoopState_stable s k g hk']
    simp
  | succ m ih =>
    intro k hk fuel d p rest g hc
    have hklt : k < s.from_.length := by omega
    have hn1 : StatementIterator.next ⟨c, k⟩ g = (some (), ⟨c, k + 1⟩,
        { next := g.nodes.arena.length,
          nodes := ⟨g.nodes.arena ++ [Node.TableWithJoins (s.from_[k])]⟩ }) :=
      next_setexpr_select_produce ⟨c, k⟩ g s hc hklt
    have hmap : (List.range (m + 1)).map
        (fun j => (⟨d + 1, g.nodes.arena.length + j, some c⟩ : Out)) =
        (⟨d + 1, g.nodes.arena.length, some c⟩ : Out) ::
          (List.range m).map
            (fun j => (⟨d + 1, g.nodes.arena.length + 1 + j, some c⟩ : Out)) := by
      rw [List.range_succ_eq_map, List.map_cons, List.map_map]
      have hfun : ((fun j => (⟨d + 1, g.nodes.arena.length + j, some c⟩ : Out))
          ∘ Nat.succ)
          = fun j => (⟨d + 1, g.nodes.arena.length + 1 + j, some c⟩ : Out) := by
        funext j
        have h2 : g.nodes.arena.length + Nat.succ j =
            g.nodes.arena.length + 1 + j := by omega
        simp only [Function.comp_apply]
        rw [h2]
      rw [hfun]
      simp
    rw [show 3 * (m + 1) + 1 + fuel = ((3 * m + 2 + fuel) + 1) + 1 by omega,
        drive_produce_mk _ _ _ _ _ _ _ _ hn1,
        drive_emit_mk]
    set g2 : GlobalState :=
      (⟨g.nodes.arena.length,
        ⟨g.nodes.arena ++ [Node.TableWithJoins (s.from_[k])]⟩⟩ : GlobalState) with hg2
    have hlook2 : g2.nodes.arena[(stm_iter g2).current]? =
        some (Node.TableWithJoins (s.from_[k])) := by
      rw [hg2]
      simp [stm_iter, next_get, List.getElem?_concat_length]
    have hn2 : (stm_iter g2).next g2 = (none, stm_iter g2, g2) :=
      next_other_kind (stm_iter g2) g2 _ hlook2
        (fun stm h => Node.noConfusion h) (fun se h => Node.noConfusion h)
    have hclt : c < g.nodes.arena.length := by
      rcases List.getElem?_eq_some.mp hc with ⟨h, _⟩
      exact h
    have hc2 : g2.nodes.arena[c]? = some (Node.SetExpr (SetExpr.Select s)) := by
      rw [hg2]
      show (g.nodes.arena ++ [Node.TableWithJoins (s.from_[k])])[c]? = _
      rw [List.getElem?_append_left hclt]
      exact hc
    rw [show 3 * m + 2 + fuel = (3 * m + 1 + fuel) + 1 by omega,
        drive_exhaust_mk _ _ _ _ _ _ _ _ hn2,
        ih (k + 1) (by omega) fuel d p rest g2 hc2,
        hg2, fromLoopState_cons s k g hklt, hmap]
    simp [next_get]

/-- The nodes one statement's traversal appends to the arena, in
allocation order. -/
def expectedNodes (stm : Statement) : List Node :=
  Node.Statement stm ::
    (match stm with
     | .Query q =>
       Node.SetExpr q.body ::
         (match q.body with
          | .Select s => s.from_.map Node.TableWithJoins
          | _ => [])
     | _ => [])

/-- The items one statement's traversal yields, when the root is seeded
at identifier `t`. -/
def expectedOuts (t : Nat) (stm : Statement) : List Out :=
  ⟨0, t, none⟩ ::
    (match stm with
     | .Query q =>
       ⟨1, t + 1, some t⟩ ::
         (match q.body with
          | .Select s =>
            (List.range s.from_.length).map fun j =>
              (⟨2, t + 2 + j, some (t + 1)⟩ : Out)
          | _ => [])
     | _ => [])

/-- The value of the `NEXT` cell after one statement's traversal, when
the root was seeded at identifier `t`. -/
def expectedNext (t : Nat) (stm : Statement) : Nat :=
  match stm with
  | .Query q =>
    match q.body with
    | .Select s => if s.from_.length = 0 then t + 1 else t + 1 + s.from_.length
    | _ => t + 1
  | _ => t

theorem run_statement_nonquery (g : GlobalState) (stm : Statement)
    (hnq : ∀ q, stm ≠ Statement.Query q)
    (hfuel : driveFuel stm = 5) :
    run_statement g stm =
      ([⟨0, g.nodes.arena.length, none⟩],
       { next := g.nodes.arena.length,
         nodes := ⟨g.nodes.arena ++ [Node.Statement stm]⟩ }) := by
  have hg1 : run_statement g stm = drive (driveFuel stm)
      [{ it := { current := g.nodes.arena.length, step := 0 }, depth := 0,
         parent := none, yielded := false }]
      { next := g.nodes.arena.length,
        nodes := ⟨g.nodes.arena ++ [Node.Statement stm]⟩ } := rfl
  have hlook : (g.nodes.arena ++ [Node.Statement stm])[g.nodes.arena.length]? =
      some (Node.Statement stm) := List.getElem?_concat_length _ _
  have hne : StatementIterator.next ⟨g.nodes.arena.length, 0⟩
      { next := g.nodes.arena.length,
        nodes := ⟨g.nodes.arena ++ [Node.Statement stm]⟩ } =
      (none, ⟨g.nodes.arena.length, 0⟩,
       { next := g.nodes.arena.length,
         nodes := ⟨g.nodes.arena ++ [Node.Statement stm]⟩ }) :=
    next_statement_nonquery _ _ stm hlook hnq
  rw [hg1, hfuel]
  rw [drive_emit_mk 4, drive_exhaust_mk 3 _ _ _ _ _ _ _ hne, drive_nil]
  simp [next_get]

theorem run_statement_query_nonselect (g : GlobalState) (body : SetExpr)
    (hns : ∀ s, body ≠ SetExpr.Select s)
    (hfuel : driveFuel (Statement.Query (Query.mk body)) = 5) :
    run_statement g (Statement.Query (Query.mk body)) =
      ([⟨0, g.nodes.arena.length, none⟩,
        ⟨1, g.nodes.arena.length + 1, some g.nodes.arena.length⟩],
       { next := g.nodes.arena.length + 1,
         nodes := ⟨(g.nodes.arena ++
             [Node.Statement (Statement.Query (Query.mk body))]) ++
             [Node.SetExpr body]⟩ }) := by
  have hg1 : run_statement g (Statement.Query (Query.mk body)) =
      drive (driveFuel (Statement.Query (Query.mk body)))
        [{ it := { current := g.nodes.arena.length, step := 0 }, depth := 0,
           parent := none, yielded := false }]
        { next := g.nodes.arena.length,
          nodes := ⟨g.nodes.arena ++
            [Node.Statement (Statement.Query (Query.mk body))]⟩ } := rfl
  have hlook : (g.nodes.arena ++
      [Node.Statement (Statement.Query (Query.mk body))])[g.nodes.arena.length]? =
      some (Node.Statement (Statement.Query (Query.mk body))) :=
    List.getElem?_concat_length _ _
  have hn1 : StatementIterator.next ⟨g.nodes.arena.length, 0⟩
      { next := g.nodes.arena.length,
        nodes := ⟨g.nodes.arena ++
          [Node.Statement (Statement.Query (Query.mk body))]⟩ } =
      (some (), ⟨g.nodes.arena.length, 1⟩,
       { next := g.nodes.arena.length + 1,
         nodes := ⟨(g.nodes.arena ++
             [Node.Statement (Statement.Query (Query.mk body))]) ++
             [Node.SetExpr body]⟩ }) := by
    simpa [Query.body] using next_statement_query_step0 ⟨g.nodes.arena.length, 0⟩
      { next := g.nodes.arena.length,
        nodes := ⟨g.nodes.arena ++
          [Node.Statement (Statement.Query (Query.mk body))]⟩ }
      (Query.mk body) hlook rfl
  have hlook2 : ((g.nodes.arena ++
      [Node.Statement (Statement.Query (Query.mk body))]) ++
      [Node.SetExpr body])[g.nodes.arena.length + 1]? =
      some (Node.SetExpr body) := by
    rw [show g.nodes.arena.length + 1 = (g.nodes.arena ++
      [Node.Statement (Statement.Query (Query.mk body))]).length by simp]
    exact List.getElem?_concat_length _ _
  have hn2 : StatementIterator.next (stm_iter
      { next := g.nodes.arena.length + 1,
        nodes := ⟨(g.nodes.arena ++
            [Node.Statement (Statement.Query (Query.mk body))]) ++
            [Node.SetExpr body]⟩ })
      { next := g.nodes.arena.length + 1,
        nodes := ⟨(g.nodes.arena ++
            [Node.Statement (Statement.Query (Query.mk body))]) ++
            [Node.SetExpr body]⟩ } =
      (none, stm_iter
        { next := g.nodes.arena.length + 1,
          nodes := ⟨(g.nodes.arena ++
              [Node.Statement (Statement.Query (Query.mk body))]) ++
              [Node.SetExpr body]⟩ },
       { next := g.nodes.arena.length + 1,
         nodes := ⟨(g.nodes.arena ++
             [Node.Statement (Statement.Query (Query.mk body))]) ++
             [Node.SetExpr body]⟩ }) :=
    next_setexpr_nonselect _ _ body hlook2 hns
  have hlook3 : ((g.nodes.arena ++
      [Node.Statement (Statement.Query (Query.mk body))]) ++
      [Node.SetExpr body])[g.nodes.arena.length]? =
      some (Node.Statement (Statement.Query (Query.mk body))) := by
    rw [List.getElem?_append_left (by simp)]
    exact hlook
  have hn3 : StatementIterator.next ⟨g.nodes.arena.length, 1⟩
      { next := g.nodes.arena.length + 1,
        nodes := ⟨(g.nodes.arena ++
            [Node.Statement (Statement.Query (Query.mk body))]) ++
            [Node.SetExpr body]⟩ } =
      (none, ⟨g.nodes.arena.length, 1⟩,
       { next := g.nodes.arena.length + 1,
         nodes := ⟨(g.nodes.arena ++
             [Node.Statement (Statement.Query (Query.mk body))]) ++
             [Node.SetExpr body]⟩ }) :=
    next_statement_query_step_pos _ _ (Query.mk body) hlook3 (by simp)
  rw [hg1, hfuel, drive_emit_mk 4, drive_produce_mk 3 _ _ _ _ _ _ _ hn1,
      drive_emit_mk 2, drive_exhaust_mk 1 _ _ _ _ _ _ _ hn2,
      drive_exhaust_mk 0 _ _ _ _ _ _ _ hn3, drive_nil]
  simp [next_get]

theorem run_statement_query_select (g : GlobalState) (s : Select) :
    run_statement g (Statement.Query (Query.mk (SetExpr.Select s))) =
      ((⟨0, g.nodes.arena.length, none⟩ : Out) ::
         (⟨1, g.nodes.arena.length + 1, some g.nodes.arena.length⟩ : Out) ::
         (List.range s.from_.length).map
           (fun j => (⟨2, g.nodes.arena.length + 2 + j,
              some (g.nodes.arena.length + 1)⟩ : Out)),
       { next := if s.from_.length = 0 then g.nodes.arena.length + 1
           else g.nodes.arena.length + 1 + s.from_.length,
         nodes := ⟨g.nodes.arena ++
           (Node.Statement (Statement.Query (Query.mk (SetExpr.Select s))) ::
            Node.SetExpr (SetExpr.Select s) ::
            s.from_.map Node.TableWithJoins)⟩ }) := by
  have hg1 : run_statement g (Statement.Query (Query.mk (SetExpr.Select s))) =
      drive (3 * s.from_.length + 5)
        [{ it := { current := g.nodes.arena.length, step := 0 }, depth := 0,
           parent := none, yielded := false }]
        (⟨g.nodes.arena.length,
          ⟨g.nodes.arena ++
            [Node.Statement (Statement.Query (Query.mk (SetExpr.Select s)))]⟩⟩ :
          GlobalState) := rfl
  have hlook : (g.nodes.arena ++
      [Node.Statement
        (Statement.Query (Query.mk (SetExpr.Select s)))])[g.nodes.arena.length]? =
      some (Node.Statement (Statement.Query (Query.mk (SetExpr.Select s)))) :=
    List.getElem?_concat_length _ _
  have hn1 : StatementIterator.next ⟨g.nodes.arena.length, 0⟩
      (⟨g.nodes.arena.length,
        ⟨g.nodes.arena ++
          [Node.Statement (Statement.Query (Query.mk (SetExpr.Select s)))]⟩⟩ :
        GlobalState) =
      (some (), ⟨g.nodes.arena.length, 1⟩,
       ⟨g.nodes.arena.length + 1,
        ⟨(g.nodes.arena ++
            [Node.Statement (Statement.Query (Query.mk (SetExpr.Select s)))]) ++
            [Node.SetExpr (SetExpr.Select s)]⟩⟩) := by
    simpa [Query.body] using next_statement_query_step0 ⟨g.nodes.arena.length, 0⟩
      (⟨g.nodes.arena.length,
        ⟨g.nodes.arena ++
          [Node.Statement (Statement.Query (Query.mk (SetExpr.Select s)))]⟩⟩ :
        GlobalState)
      (Query.mk (SetExpr.Select s)) hlook rfl
  have hc3 : (⟨g.nodes.arena.length + 1,
      ⟨(g.nodes.arena ++
          [Node.Statement (Statement.Query (Query.mk (SetExpr.Select s)))]) ++
          [Node.SetExpr (SetExpr.Select s)]⟩⟩ :
        GlobalState).nodes.arena[g.nodes.arena.length + 1]? =
      some (Node.SetExpr (SetExpr.Select s)) := by
    show ((g.nodes.arena ++
        [Node.Statement (Statement.Query (Query.mk (SetExpr.Select s)))]) ++
        [Node.SetExpr (SetExpr.Select s)])[g.nodes.arena.length + 1]? = _
    rw [show g.nodes.arena.length + 1 = (g.nodes.arena ++
      [Node.Statement (Statement.Query (Query.mk (SetExpr.Select s)))]).length
      by simp]
    exact List.getElem?_concat_length _ _
  have hlookF : (fromLoopState s 0
      (⟨g.nodes.arena.length + 1,
        ⟨(g.nodes.arena ++
            [Node.Statement (Statement.Query (Query.mk (SetExpr.Select s)))]) ++
            [Node.SetExpr (SetExpr.Select s)]⟩⟩ :
          GlobalState)).nodes.arena[
        (⟨g.nodes.arena.length, 1⟩ : StatementIterator).current]? =
      some (Node.Statement (Statement.Query (Query.mk (SetExpr.Select s)))) := by
    show (((g.nodes.arena ++
        [Node.Statement (Statement.Query (Query.mk (SetExpr.Select s)))]) ++
        [Node.SetExpr (SetExpr.Select s)]) ++
        (s.from_.drop 0).map Node.TableWithJoins)[g.nodes.arena.length]? = _
    rw [List.getElem?_append_left (by simp), List.getElem?_append_left (by simp)]
    exact List.getElem?_concat_length _ _
  have hn3 : StatementIterator.next ⟨g.nodes.arena.length, 1⟩
      (fromLoopState s 0
        (⟨g.nodes.arena.length + 1,
          ⟨(g.nodes.arena ++
              [Node.Statement (Statement.Query (Query.mk (SetExpr.Select s)))]) ++
              [Node.SetExpr (SetExpr.Select s)]⟩⟩ :
            GlobalState)) =
      (none, ⟨g.nodes.arena.length, 1⟩,
       fromLoopState s 0
        (⟨g.nodes.arena.length + 1,
          ⟨(g.nodes.arena ++
              [Node.Statement (Statement.Query (Query.mk (SetExpr.Select s)))]) ++
              [Node.SetExpr (SetExpr.Select s)]⟩⟩ :
            GlobalState)) :=
    next_statement_query_step_pos _ _ (Query.mk (SetExpr.Select s)) hlookF (by simp)
  rw [hg1,
      show 3 * s.from_.length + 5 = (((3 * s.from_.length + 1 + 1) + 1) + 1) + 1
        by omega,
      drive_emit_mk, drive_produce_mk _ _ _ _ _ _ _ _ hn1, drive_emit_mk]
  simp only [stm_iter, next_get]
  rw [drive_from_select (g.nodes.arena.length + 1) s s.from_.length 0 (by simp)
        1 _ _ _
        (⟨g.nodes.arena.length + 1,
          ⟨(g.nodes.arena ++
              [Node.Statement (Statement.Query (Query.mk (SetExpr.Select s)))]) ++
              [Node.SetExpr (SetExpr.Select s)]⟩⟩ :
            GlobalState) hc3,
      drive_exhaust_mk 0 _ _ _ _ _ _ _ hn3, drive_nil]
  rcases Nat.eq_zero_or_pos s.from_.length with hn | hn
  · simp [fromLoopState, hn, Nat.add_assoc]
  · simp [fromLoopState, hn, hn.ne', Nat.add_assoc]
    omega

theorem run_statement_eq (g : GlobalState) (stm : Statement) :
    run_statement g stm =
      (expectedOuts g.nodes.arena.length stm,
       { next := expectedNext g.nodes.arena.length stm,
         nodes := ⟨g.nodes.arena ++ expectedNodes stm⟩ }) := by
  cases stm with
  | Query q =>
    cases q with
    | mk body =>
      cases body with
      | Select s =>
        rw [run_statement_query_select g s]
        simp [expectedOuts, expectedNodes, expectedNext, Query.body]
      | Query q2 =>
        rw [run_statement_query_nonselect g (SetExpr.Query q2)
          (fun x h => SetExpr.noConfusion h) rfl]
        simp [expectedOuts, expectedNodes, expectedNext, Query.body]
      | SetOperation op l r =>
        rw [run_statement_query_nonselect g (SetExpr.SetOperation op l r)
          (fun x h => SetExpr.noConfusion h) rfl]
        simp [expectedOuts, expectedNodes, expectedNext, Query.body]
      | Values v =>
        rw [run_statement_query_nonselect g (SetExpr.Values v)
          (fun x h => SetExpr.noConfusion h) rfl]
        simp [expectedOuts, expectedNodes, expectedNext, Query.body]
      | Insert st =>
        rw [run_statement_query_nonselect g (SetExpr.Insert st)
          (fun x h => SetExpr.noConfusion h) rfl]
        simp [expectedOuts, expectedNodes, expectedNext, Query.body]
  | Insert tbl =>
    rw [run_statement_nonquery g (Statement.Insert tbl)
      (fun x h => Statement.noConfusion h) rfl]
    simp [expectedOuts, expectedNodes, expectedNext]
  | OtherStatement d =>
    rw [run_statement_nonquery g (Statement.OtherStatement d)
      (fun x h => Statement.noConfusion h) rfl]
    simp [expectedOuts, expectedNodes, expectedNext]

theorem getElem?_append_offset {α : Type} (l1 l2 : List α) (i : Nat) :
    (l1 ++ l2)[l1.length + i]? = l2[i]? := by
  rw [List.getElem?_append, if_neg (by omega)]
  congr 1
  omega

/-- The (depth, node kind) pairs one statement's traversal lets a
consumer observe, as a function of the statement alone. -/
def expectedKinds (stm : Statement) : List (Nat × Option NodeKind) :=
  (0, some NodeKind.Statement) ::
    (match stm with
     | .Query q =>
       (1, some NodeKind.SetExpr) ::
         (match q.body with
          | .Select s =>
            (List.range s.from_.length).map
              (fun _ => ((2 : Nat), some NodeKind.TableWithJoins))
          | _ => [])
     | _ => [])

theorem traceKinds_eq (g : GlobalState) (stm : Statement) :
    traceKinds g stm = expectedKinds stm := by
  unfold traceKinds
  rw [run_statement_eq g stm]
  cases stm with
  | Query q =>
    cases q with
    | mk body =>
      cases body with
      | Select s =>
        have h0 : (g.nodes.arena ++
            (Node.Statement (Statement.Query (Query.mk (SetExpr.Select s))) ::
             Node.SetExpr (SetExpr.Select s) ::
             s.from_.map Node.TableWithJoins))[g.nodes.arena.length]? =
            some (Node.Statement (Statement.Query (Query.mk (SetExpr.Select s)))) := by
          simpa using getElem?_append_offset g.nodes.arena
            (Node.Statement (Statement.Query (Query.mk (SetExpr.Select s))) ::
             Node.SetExpr (SetExpr.Select s) ::
             s.from_.map Node.TableWithJoins) 0
        have h1 : (g.nodes.arena ++
            (Node.Statement (Statement.Query (Query.mk (SetExpr.Select s))) ::
             Node.SetExpr (SetExpr.Select s) ::
             s.from_.map Node.TableWithJoins))[g.nodes.arena.length + 1]? =
            some (Node.SetExpr (SetExpr.Select s)) := by
          simpa using getElem?_append_offset g.nodes.arena
            (Node.Statement (Statement.Query (Query.mk (SetExpr.Select s))) ::
             Node.SetExpr (SetExpr.Select s) ::
             s.from_.map Node.TableWithJoins) 1
        have h2 : ∀ (j : Nat) (hj : j < s.from_.length), (g.nodes.arena ++
            (Node.Statement (Statement.Query (Query.mk (SetExpr.Select s))) ::
             Node.SetExpr (SetExpr.Select s) ::
             s.from_.map Node.TableWithJoins))[g.nodes.arena.length + 2 + j]? =
            some (Node.TableWithJoins (s.from_[j])) := by
          intro j hj
          rw [Nat.add_assoc, getElem?_append_offset,
              show 2 + j = (j + 1) + 1 by omega,
              List.getElem?_cons_succ, List.getElem?_cons_succ,
              List.getElem?_map, List.getElem?_eq_getElem hj]
          rfl
        simp only [expectedOuts, expectedNodes, expectedKinds, Query.body,
          List.map_cons, List.map_map]
        rw [h0, h1]
        refine congrArg₂ List.cons (by simp [Node.kind])
          (congrArg₂ List.cons (by simp [Node.kind]) ?_)
        apply List.map_congr_left
        intro j hj
        have hj' := List.mem_range.mp hj
        simp [h2 j hj', Node.kind]
      | Query q2 =>
        have h0 := getElem?_append_offset g.nodes.arena
          [Node.Statement (Statement.Query (Query.mk (SetExpr.Query q2))),
           Node.SetExpr (SetExpr.Query q2)] 0
        have h1 := getElem?_append_offset g.nodes.arena
          [Node.Statement (Statement.Query (Query.mk (SetExpr.Query q2))),
           Node.SetExpr (SetExpr.Query q2)] 1
        simp only [Nat.add_zero, List.getElem?_cons_zero,
          List.getElem?_cons_succ] at h0 h1
        simp [expectedOuts, expectedNodes, expectedKinds, Query.body,
          h0, h1, Node.kind]
      | SetOperation op l r =>
        have h0 := getElem?_append_offset g.nodes.arena
          [Node.Statement (Statement.Query (Query.mk (SetExpr.SetOperation op l r))),
           Node.SetExpr (SetExpr.SetOperation op l r)] 0
        have h1 := getElem?_append_offset g.nodes.arena
          [Node.Statement (Statement.Query (Query.mk (SetExpr.SetOperation op l r))),
           Node.SetExpr (SetExpr.SetOperation op l r)] 1
        simp only [Nat.add_zero, List.getElem?_cons_zero,
          List.getElem?_cons_succ] at h0 h1
        simp [expectedOuts, expectedNodes, expectedKinds, Query.body,
          h0, h1, Node.kind]
      | Values v =>
        have h0 := getElem?_append_offset g.nodes.arena
          [Node.Statement (Statement.Query (Query.mk (SetExpr.Values v))),
           Node.SetExpr (SetExpr.Values v)] 0
        have h1 := getElem?_append_offset g.nodes.arena
          [Node.Statement (Statement.Query (Query.mk (SetExpr.Values v))),
           Node.SetExpr (SetExpr.Values v)] 1
        simp only [Nat.add_zero, List.getElem?_cons_zero,
          List.getElem?_cons_succ] at h0 h1
        simp [expectedOuts, expectedNodes, expectedKinds, Query.body,
          h0, h1, Node.kind]
      | Insert st =>
        have h0 := getElem?_append_offset g.nodes.arena
          [Node.Statement (Statement.Query (Query.mk (SetExpr.Insert st))),
           Node.SetExpr (SetExpr.Insert st)] 0
        have h1 := getElem?_append_offset g.nodes.arena
          [Node.Statement (Statement.Query (Query.mk (SetExpr.Insert st))),
           Node.SetExpr (SetExpr.Insert st)] 1
        simp only [Nat.add_zero, List.getElem?_cons_zero,
          List.getElem?_cons_succ] at h0 h1
        simp [expectedOuts, expectedNodes, expectedKinds, Query.body,
          h0, h1, Node.kind]
  | Insert tbl =>
    have h0 := List.getElem?_concat_length g.nodes.arena
      (Node.Statement (Statement.Insert tbl))
    simp [expectedOuts, expectedNodes, expectedKinds, h0, Node.kind]
  | OtherStatement d =>
    have h0 := List.getElem?_concat_length g.nodes.arena
      (Node.Statement (Statement.OtherStatement d))
    simp [expectedOuts, expectedNodes, expectedKinds, h0, Node.kind]

/-- Every enumerator call either allocates exactly one node (advancing the
step counter and storing the fresh identifier in `NEXT`) or changes
nothing. -/
theorem next_dichotomy (it : StatementIterator) (g : GlobalState) :
    (∃ nd : Node, it.next g = (some (), ⟨it.current, it.step + 1⟩,
      ⟨g.nodes.arena.length, ⟨g.nodes.arena ++ [nd]⟩⟩)) ∨
    it.next g = (none, it, g) := by
  rcases hl : g.nodes.arena[it.current]? with _ | nd
  · exact Or.inr (next_of_lookup_none it g hl)
  · cases nd with
    | Statement stm =>
      cases stm with
      | Query q =>
        by_cases hs : it.step = 0
        · exact Or.inl ⟨Node.SetExpr q.body,
            next_statement_query_step0 it g q hl hs⟩
        · exact Or.inr (next_statement_query_step_pos it g q hl hs)
      | Insert x =>
        exact Or.inr (next_statement_nonquery it g _ hl
          (fun q h => Statement.noConfusion h))
      | OtherStatement x =>
        exact Or.inr (next_statement_nonquery it g _ hl
          (fun q h => Statement.noConfusion h))
    | SetExpr se =>
      cases se with
      | Select s =>
        by_cases hs : it.step < s.from_.length
        · exact Or.inl ⟨Node.TableWithJoins (s.from_[it.step]),
            next_setexpr_select_produce it g s hl hs⟩
        · exact Or.inr (next_setexpr_select_exhaust it g s hl (by omega))
      | Query q =>
        exact Or.inr (next_setexpr_nonselect it g _ hl
          (fun x h => SetExpr.noConfusion h))
      | SetOperation op l r =>
        exact Or.inr (next_setexpr_nonselect it g _ hl
          (fun x h => SetExpr.noConfusion h))
      | Values v =>
        exact Or.inr (next_setexpr_nonselect it g _ hl
          (fun x h => SetExpr.noConfusion h))
      | Insert st =>
        exact Or.inr (next_setexpr_nonselect it g _ hl
          (fun x h => SetExpr.noConfusion h))
    | BinaryOperator x =>
      exact Or.inr (next_other_kind it g _ hl
        (fun y h => Node.noConfusion h) (fun y h => Node.noConfusion h))
    | Expr x =>
      exact Or.inr (next_other_kind it g _ hl
        (fun y h => Node.noConfusion h) (fun y h => Node.noConfusion h))
    | Query x =>
      exact Or.inr (next_other_kind it g _ hl
        (fun y h => Node.noConfusion h) (fun y h => Node.noConfusion h))
    | Select x =>
      exact Or.inr (next_other_kind it g _ hl
        (fun y h => Node.noConfusion h) (fun y h => Node.noConfusion h))
    | SelectItem x =>
      exact Or.inr (next_other_kind it g _ hl
        (fun y h => Node.noConfusion h) (fun y h => Node.noConfusion h))
    | TableWithJoins x =>
      exact Or.inr (next_other_kind it g _ hl
        (fun y h => Node.noConfusion h) (fun y h => Node.noConfusion h))

theorem next_none_fixed (it : StatementIterator) (g : GlobalState)
    (h : (it.next g).1 = none) : it.next g = (none, it, g) := by
  rcases next_dichotomy it g with ⟨nd, he⟩ | he
  · rw [he] at h
    cases h
  · exact he

/-- Repeatedly advancing the cursor and state through the enumerator. -/
def iterate_next : Nat → StatementIterator × GlobalState →
    StatementIterator × GlobalState
  | 0, p => p
  | k + 1, p => iterate_next k ((p.1.next p.2).2.1, (p.1.next p.2).2.2)

theorem iterate_next_none (it : StatementIterator) (g : GlobalState)
    (h : (it.next g).1 = none) :
    ∀ k : Nat, iterate_next k (it, g) = (it, g) := by
  intro k
  induction k with
  | zero => rfl
  | succ k ih =>
    show iterate_next k (((it, g).1.next (it, g).2).2.1,
      ((it, g).1.next (it, g).2).2.2) = (it, g)
    rw [show ((it, g).1.next (it, g).2) = (none, it, g) from next_none_fixed it g h]
    exact ih

/-! ### Claims -/

/-- Claim C4: arena allocation never fails; `new_node` returns the length
of the arena immediately before the call as the fresh identifier, appends
the node so the length grows by exactly one, leaves every existing slot
untouched (identifiers dense, never reused or removed), and `next_id`
always equals the next identifier that will be handed out. -/
theorem claim_C4 (ns : Nodes) (nd : Node) :
    (ns.new_node nd).2 = ns.arena.length ∧
    ns.next_id = ns.arena.length ∧
    (ns.new_node nd).1.arena = ns.arena ++ [nd] ∧
    (ns.new_node nd).1.arena.length = ns.arena.length + 1 ∧
    (ns.new_node nd).1.next_id = ns.next_id + 1 ∧
    (ns.new_node nd).1.arena[(ns.new_node nd).2]? = some nd ∧
    (∀ i : Nat, i < ns.arena.length →
      (ns.new_node nd).1.arena[i]? = ns.arena[i]?) := by
  refine ⟨rfl, rfl, rfl, by simp [Nodes.new_node], by simp [Nodes.new_node, Nodes.next_id],
    List.getElem?_concat_length _ _, ?_⟩
  intro i hi
  exact List.getElem?_append_left hi

/-- Claim C4 witness: allocation into a one-element arena. -/
theorem claim_C4_witness :
    ((0 : Nat) < 1) ∧
    ((Nodes.new_node ⟨[Node.SelectItem SelectItem.Wildcard]⟩
        (Node.TableWithJoins ⟨"t"⟩)).1.arena[0]? =
      (⟨[Node.SelectItem SelectItem.Wildcard]⟩ : Nodes).arena[0]?) :=
  ⟨by decide,
   (claim_C4 ⟨[Node.SelectItem SelectItem.Wildcard]⟩
     (Node.TableWithJoins ⟨"t"⟩)).2.2.2.2.2.2 0 (by decide)⟩

/-- Claim C7: when the current identifier is out of range of the arena
(`id ≥ len`), an enumerator call reports exhaustion — it returns no
child, leaves the cursor and the arena unchanged, and allocates
nothing. -/
theorem claim_C7 (g : GlobalState) (it : StatementIterator)
    (h : g.nodes.arena.length ≤ it.current) :
    it.next g = (none, it, g) := by
  apply next_of_lookup_none
  exact List.getElem?_eq_none h

/-- Claim C7 witness: identifier 3 against an empty arena. -/
theorem claim_C7_witness :
    ((⟨0, ⟨[]⟩⟩ : GlobalState).nodes.arena.length ≤ 3) ∧
    StatementIterator.next ⟨3, 0⟩ ⟨0, ⟨[]⟩⟩ = (none, ⟨3, 0⟩, ⟨0, ⟨[]⟩⟩) :=
  ⟨by decide, claim_C7 ⟨0, ⟨[]⟩⟩ ⟨3, 0⟩ (by decide)⟩

/-- Claim C8 counterexample: the `Node` union is not limited to the seven
kinds Statement, SetExpr, Select, SelectItem, TableWithJoins, Expr,
BinaryOperator — the value `Node.Query …` is none of them. -/
theorem claim_C8_counterexample :
    ∃ nd : Node,
      (∀ x, nd ≠ Node.Statement x) ∧ (∀ x, nd ≠ Node.SetExpr x) ∧
      (∀ x, nd ≠ Node.Select x) ∧ (∀ x, nd ≠ Node.SelectItem x) ∧
      (∀ x, nd ≠ Node.TableWithJoins x) ∧ (∀ x, nd ≠ Node.Expr x) ∧
      (∀ x, nd ≠ Node.BinaryOperator x) :=
  ⟨Node.Query (Query.mk (SetExpr.Values [])),
   fun _ h => Node.noConfusion h, fun _ h => Node.noConfusion h,
   fun _ h => Node.noConfusion h, fun _ h => Node.noConfusion h,
   fun _ h => Node.noConfusion h, fun _ h => Node.noConfusion h,
   fun _ h => Node.noConfusion h⟩

/-- Claim C8 (amended): the `Node` type is a closed tagged union over
exactly the eight AST node kinds BinaryOperator, Expr, Query, SetExpr,
Select, SelectItem, Statement and TableWithJoins, each variant wrapping
the corresponding parser-produced value unmodified. -/
theorem claim_C8 (nd : Node) :
    (∃ x, nd = Node.BinaryOperator x) ∨ (∃ x, nd = Node.Expr x) ∨
    (∃ x, nd = Node.Query x) ∨ (∃ x, nd = Node.SetExpr x) ∨
    (∃ x, nd = Node.Select x) ∨ (∃ x, nd = Node.SelectItem x) ∨
    (∃ x, nd = Node.Statement x) ∨ (∃ x, nd = Node.TableWithJoins x) := by
  cases nd with
  | BinaryOperator x => exact Or.inl ⟨x, rfl⟩
  | Expr x => exact Or.inr (Or.inl ⟨x, rfl⟩)
  | Query x => exact Or.inr (Or.inr (Or.inl ⟨x, rfl⟩))
  | SetExpr x => exact Or.inr (Or.inr (Or.inr (Or.inl ⟨x, rfl⟩)))
  | Select x => exact Or.inr (Or.inr (Or.inr (Or.inr (Or.inl ⟨x, rfl⟩))))
  | SelectItem x =>
    exact Or.inr (Or.inr (Or.inr (Or.inr (Or.inr (Or.inl ⟨x, rfl⟩)))))
  | Statement x =>
    exact Or.inr (Or.inr (Or.inr (Or.inr (Or.inr (Or.inr (Or.inl ⟨x, rfl⟩))))))
  | TableWithJoins x =>
    exact Or.inr (Or.inr (Or.inr (Or.inr (Or.inr (Or.inr (Or.inr ⟨x, rfl⟩))))))

/-- Claim C9: traversal is deterministic — running the traversal twice
over the same parsed statement in the same process, each run seeding its
own root into the (shared, persistent) arena, yields two identical
sequences of (depth, node-kind) pairs. -/
theorem claim_C9 (g : GlobalState) (stm : Statement) :
    traceKinds g stm = traceKinds (run_statement g stm).2 stm := by
  rw [traceKinds_eq, traceKinds_eq]

/-- Claim C6: on input text the external parser rejects (here
`"select from"`), `parse_sql` returns a `ParseFailure` (`Parse`) error
wrapping the underlying parser diagnostic, yields zero traversal nodes,
and leaves the arena (the whole global state) unchanged. -/
theorem claim_C6 (g : GlobalState) :
    ∃ e : ParserError, parse "select from" = Except.error e ∧
      parse_sql g "select from" =
        (Except.error (QueryParseError.Parse e), [], g) :=
  ⟨⟨"Expected an expression, found: " ++ "select from"⟩, rfl, rfl⟩

/-- Claim C1: the child enumerator implements exactly the per-kind
dispatch table — for `Statement::Query(q)`, step 0 allocates `q`'s body
as a SetExpr node and every step ≥ 1 reports exhaustion; for
`SetExpr::Select(s)`, every step `i < len(s.from)` allocates `s.from[i]`
as a TableWithJoins node in source order and every step ≥ `len(s.from)`
reports exhaustion; for every other statement or set-expression variant
and every other node kind the call reports exhaustion unchanged. -/
theorem claim_C1 (g : GlobalState) (it : StatementIterator) :
    (∀ q : Query,
      g.nodes.arena[it.current]? = some (Node.Statement (Statement.Query q)) →
      (it.step = 0 →
        it.next g = (some (), { it with step := it.step + 1 },
          ⟨g.nodes.arena.length, ⟨g.nodes.arena ++ [Node.SetExpr q.body]⟩⟩)) ∧
      (1 ≤ it.step → it.next g = (none, it, g))) ∧
    (∀ stm : Statement,
      g.nodes.arena[it.current]? = some (Node.Statement stm) →
      (∀ q, stm ≠ Statement.Query q) → it.next g = (none, it, g)) ∧
    (∀ s : Select,
      g.nodes.arena[it.current]? = some (Node.SetExpr (SetExpr.Select s)) →
      (∀ hs : it.step < s.from_.length,
        it.next g = (some (), { it with step := it.step + 1 },
          ⟨g.nodes.arena.length,
           ⟨g.nodes.arena ++ [Node.TableWithJoins (s.from_[it.step])]⟩⟩)) ∧
      (s.from_.length ≤ it.step → it.next g = (none, it, g))) ∧
    (∀ se : SetExpr,
      g.nodes.arena[it.current]? = some (Node.SetExpr se) →
      (∀ s, se ≠ SetExpr.Select s) → it.next g = (none, it, g)) ∧
    (∀ nd : Node,
      g.nodes.arena[it.current]? = some nd →
      (∀ stm, nd ≠ Node.Statement stm) → (∀ se, nd ≠ Node.SetExpr se) →
      it.next g = (none, it, g)) := by
  refine ⟨?_, ?_, ?_, ?_, ?_⟩
  · intro q h
    exact ⟨fun hs => next_statement_query_step0 it g q h hs,
      fun hs => next_statement_query_step_pos it g q h (by omega)⟩
  · intro stm h hq
    exact next_statement_nonquery it g stm h hq
  · intro s h
    exact ⟨fun hs => next_setexpr_select_produce it g s h hs,
      fun hs => next_setexpr_select_exhaust it g s h hs⟩
  · intro se h hs
    exact next_setexpr_nonselect it g se h hs
  · intro nd h h1 h2
    exact next_other_kind it g nd h h1 h2

/-- Claim C1 witness: a concrete Statement-Query node at step 0 produces
its body, and a concrete SetExpr-Select node at step 1 of a one-table
FROM list is exhausted. -/
theorem claim_C1_witness :
    StatementIterator.next ⟨0, 0⟩
      ⟨0, ⟨[Node.Statement (Statement.Query (Query.mk
        (SetExpr.Values [])))]⟩⟩ =
      (some (), ⟨0, 1⟩, ⟨1, ⟨[Node.Statement (Statement.Query (Query.mk
        (SetExpr.Values []))), Node.SetExpr (SetExpr.Values [])]⟩⟩) ∧
    StatementIterator.next ⟨0, 1⟩
      ⟨0, ⟨[Node.SetExpr (SetExpr.Select ⟨[], [⟨"t"⟩], none⟩)]⟩⟩ =
      (none, ⟨0, 1⟩, ⟨0, ⟨[Node.SetExpr (SetExpr.Select ⟨[], [⟨"t"⟩], none⟩)]⟩⟩) := by
  constructor
  · have h := ((claim_C1 ⟨0, ⟨[Node.Statement (Statement.Query (Query.mk
      (SetExpr.Values [])))]⟩⟩ ⟨0, 0⟩).1 (Query.mk (SetExpr.Values []))
      rfl).1 rfl
    simpa [Query.body] using h
  · exact ((claim_C1 ⟨0, ⟨[Node.SetExpr (SetExpr.Select ⟨[], [⟨"t"⟩], none⟩)]⟩⟩
      ⟨0, 1⟩).2.2.1 ⟨[], [⟨"t"⟩], none⟩ rfl).2 (by decide)

/-- Claim C5: every enumerator call either allocates exactly one node,
increments the cursor's step counter by exactly one and reports the new
node's identifier (stored in `NEXT`, equal to the arena length before the
call), or reports exhaustion leaving the cursor, the `NEXT` cell and the
arena unchanged; and once a call has reported exhaustion for a cursor,
every subsequent call on that cursor keeps reporting exhaustion. -/
theorem claim_C5 (it : StatementIterator) (g : GlobalState) :
    ((∃ nd : Node, it.next g = (some (), ⟨it.current, it.step + 1⟩,
        ⟨g.nodes.arena.length, ⟨g.nodes.arena ++ [nd]⟩⟩)) ∨
      it.next g = (none, it, g)) ∧
    ((it.next g).1 = none → ∀ k : Nat,
      ((iterate_next k (it, g)).1.next (iterate_next k (it, g)).2).1 = none) := by
  constructor
  · exact next_dichotomy it g
  · intro h k
    rw [iterate_next_none it g h k]
    exact h

/-- Claim C5 witness: calling the enumerator on an exhausted cursor (a
TableWithJoins node has no children) keeps reporting exhaustion on every
subsequent call. -/
theorem claim_C5_witness :
    ((StatementIterator.next ⟨0, 0⟩
        ⟨0, ⟨[Node.TableWithJoins ⟨"t"⟩]⟩⟩).1 = none) ∧
    ((iterate_next 3 (⟨0, 0⟩, ⟨0, ⟨[Node.TableWithJoins ⟨"t"⟩]⟩⟩)).1.next
      (iterate_next 3 (⟨0, 0⟩, ⟨0, ⟨[Node.TableWithJoins ⟨"t"⟩]⟩⟩)).2).1 = none :=
  ⟨by decide,
   (claim_C5 ⟨0, 0⟩ ⟨0, ⟨[Node.TableWithJoins ⟨"t"⟩]⟩⟩).2 (by decide) 3⟩

/-- Claim C10: every item the enumerator yields carries no data of its
own — it aliases the single `NEXT` cell, modelled as the one `next` field
of the global state; right after a successful step, `NEXT` holds exactly
the identifier of the node that step allocated (the old arena length,
where the new node is stored), and after any later successful step (any
state whose arena has grown) `NEXT` holds a strictly larger, different
identifier. -/
theorem claim_C10 (it : StatementIterator) (g : GlobalState)
    (h : (it.next g).1.isSome) :
    (∃ nd : Node, (it.next g).2.2.nodes.arena = g.nodes.arena ++ [nd] ∧
      (it.next g).2.2.next = g.nodes.arena.length ∧
      (it.next g).2.2.nodes.arena[(it.next g).2.2.next]? = some nd) ∧
    (∀ (it2 : StatementIterator) (g2 : GlobalState),
      g.nodes.arena.length < g2.nodes.arena.length →
      (it2.next g2).1.isSome →
      (it.next g).2.2.next < (it2.next g2).2.2.next) := by
  rcases next_dichotomy it g with ⟨nd, he⟩ | he
  · constructor
    · refine ⟨nd, ?_, ?_, ?_⟩
      · rw [he]
      · rw [he]
      · rw [he]
        exact List.getElem?_concat_length _ _
    · intro it2 g2 hlt h2
      rcases next_dichotomy it2 g2 with ⟨nd2, he2⟩ | he2
      · rw [he, he2]
        exact hlt
      · rw [he2] at h2
        cases h2
  · rw [he] at h
    cases h

/-- Claim C10 witness: a successful step on a concrete one-node arena
stores identifier 1 in `NEXT`, and a later successful step on the grown
arena stores the strictly larger identifier 2. -/
theorem claim_C10_witness :
    ((StatementIterator.next ⟨0, 0⟩
      ⟨0, ⟨[Node.Statement (Statement.Query (Query.mk
        (SetExpr.Values [])))]⟩⟩).1.isSome) ∧
    (∃ nd : Node,
      (StatementIterator.next ⟨0, 0⟩
        ⟨0, ⟨[Node.Statement (Statement.Query (Query.mk
          (SetExpr.Values [])))]⟩⟩).2.2.nodes.arena =
        (⟨0, ⟨[Node.Statement (Statement.Query (Query.mk
          (SetExpr.Values [])))]⟩⟩ : GlobalState).nodes.arena ++ [nd] ∧
      (StatementIterator.next ⟨0, 0⟩
        ⟨0, ⟨[Node.Statement (Statement.Query (Query.mk
          (SetExpr.Values [])))]⟩⟩).2.2.next =
        (⟨0, ⟨[Node.Statement (Statement.Query (Query.mk
          (SetExpr.Values [])))]⟩⟩ : GlobalState).nodes.arena.length ∧
      (StatementIterator.next ⟨0, 0⟩
        ⟨0, ⟨[Node.Statement (Statement.Query (Query.mk
          (SetExpr.Values [])))]⟩⟩).2.2.nodes.arena[
        (StatementIterator.next ⟨0, 0⟩
          ⟨0, ⟨[Node.Statement (Statement.Query (Query.mk
            (SetExpr.Values [])))]⟩⟩).2.2.next]? = some nd) :=
  ⟨by decide,
   (claim_C10 ⟨0, 0⟩ ⟨0, ⟨[Node.Statement (Statement.Query (Query.mk
     (SetExpr.Values [])))]⟩⟩ (by decide)).1⟩

/-- Claim C2: pre-order invariant — for every node the traversal yields
other than the root, the node's parent was yielded at a strictly earlier
position of the output sequence, and the parent's reported depth is
exactly one less than the child's. -/
theorem claim_C2 (g : GlobalState) (stm : Statement) (j : Nat) (o : Out)
    (p : Nat) (ho : (run_statement g stm).1[j]? = some o)
    (hp : o.parent = some p) :
    ∃ i, i < j ∧ ∃ o' : Out, (run_statement g stm).1[i]? = some o' ∧
      o'.id = p ∧ o'.depth + 1 = o.depth := by
  rw [run_statement_eq] at ho ⊢
  cases stm with
  | Query q =>
    cases q with
    | mk body =>
      obtain _ | j := j
      · simp [expectedOuts] at ho
        subst ho
        simp at hp
      · obtain _ | j := j
        · simp [expectedOuts] at ho
          subst ho
          simp at hp
          refine ⟨0, by omega, ⟨0, g.nodes.arena.length, none⟩, ?_, ?_, ?_⟩
          · simp [expectedOuts]
          · exact hp
          · rfl
        · cases body with
          | Select s =>
            simp only [expectedOuts, Query.body, List.getElem?_cons_succ] at ho
            rcases List.getElem?_eq_some.mp ho with ⟨hlt, hval⟩
            have hjn : j < s.from_.length := by simpa using hlt
            simp only [List.getElem_map, List.getElem_range] at hval
            subst hval
            simp at hp
            refine ⟨1, by omega, ⟨1, g.nodes.arena.length + 1,
              some g.nodes.arena.length⟩, ?_, ?_, ?_⟩
            · simp [expectedOuts]
            · exact hp
            · rfl
          | Query q2 =>
            simp [expectedOuts, Query.body] at ho
          | SetOperation op l r =>
            simp [expectedOuts, Query.body] at ho
          | Values v =>
            simp [expectedOuts, Query.body] at ho
          | Insert st =>
            simp [expectedOuts, Query.body] at ho
  | Insert tbl =>
    obtain _ | j := j
    · simp [expectedOuts] at ho
      subst ho
      simp at hp
    · simp [expectedOuts] at ho
  | OtherStatement d =>
    obtain _ | j := j
    · simp [expectedOuts] at ho
      subst ho
      simp at hp
    · simp [expectedOuts] at ho

/-- Claim C2 witness: in the traversal of a one-table SELECT query seeded
into an empty arena, the node at position 2 (the TableWithJoins child)
has its parent (the SetExpr node, identifier 1) at the earlier position 1
with depth exactly one less. -/
theorem claim_C2_witness :
    ((run_statement ⟨0, ⟨[]⟩⟩ (Statement.Query (Query.mk (SetExpr.Select
        ⟨[], [⟨"t"⟩], none⟩)))).1[2]? = some ⟨2, 2, some 1⟩) ∧
    (∃ i, i < 2 ∧ ∃ o' : Out,
      (run_statement ⟨0, ⟨[]⟩⟩ (Statement.Query (Query.mk (SetExpr.Select
        ⟨[], [⟨"t"⟩], none⟩)))).1[i]? = some o' ∧
      o'.id = 1 ∧ o'.depth + 1 = (⟨2, 2, some 1⟩ : Out).depth) :=
  ⟨by decide,
   claim_C2 ⟨0, ⟨[]⟩⟩ (Statement.Query (Query.mk (SetExpr.Select
     ⟨[], [⟨"t"⟩], none⟩))) 2 ⟨2, 2, some 1⟩ 1 (by decide) rfl⟩

/-- Claim C3: the input `"select a, b from t where a = 1"` parses to
exactly one Statement, and its traversal yields exactly three nodes in
order — depth 0 a Statement, depth 1 a SetExpr whose variant is Select,
depth 2 a TableWithJoins for table `t` — and nothing further (no descent
into the projection list or the predicate). -/
theorem claim_C3 :
    parse "select a, b from t where a = 1" =
      Except.ok [Statement.Query (Query.mk (SetExpr.Select
        { projection := [SelectItem.UnnamedExpr (Expr.Identifier "a"),
                         SelectItem.UnnamedExpr (Expr.Identifier "b")],
          from_ := [{ relation := "t" }],
          selection := some (Expr.BinaryOp (Expr.Identifier "a")
            BinaryOperator.Eq (Expr.Value "1")) }))] ∧
    (parse_sql ⟨0, ⟨[]⟩⟩ "select a, b from t where a = 1").1 =
      Except.ok () ∧
    (parse_sql ⟨0, ⟨[]⟩⟩ "select a, b from t where a = 1").2.1 =
      [⟨0, 0, none⟩, ⟨1, 1, some 0⟩, ⟨2, 2, some 1⟩] ∧
    ((parse_sql ⟨0, ⟨[]⟩⟩ "select a, b from t where a = 1").2.2.nodes.arena.map
        Node.kind) =
      [NodeKind.Statement, NodeKind.SetExpr, NodeKind.TableWithJoins] ∧
    (parse_sql ⟨0, ⟨[]⟩⟩ "select a, b from t where a = 1").2.2.nodes.arena[1]? =
      some (Node.SetExpr (SetExpr.Select
        { projection := [SelectItem.UnnamedExpr (Expr.Identifier "a"),
                         SelectItem.UnnamedExpr (Expr.Identifier "b")],
          from_ := [{ relation := "t" }],
          selection := some (Expr.BinaryOp (Expr.Identifier "a")
            BinaryOperator.Eq (Expr.Value "1")) })) ∧
    (parse_sql ⟨0, ⟨[]⟩⟩ "select a, b from t where a = 1").2.2.nodes.arena[2]? =
      some (Node.TableWithJoins ⟨"t"⟩) :=
  ⟨rfl, rfl, rfl, rfl, rfl, rfl⟩
